import Mathlib

/-!
Verification of the data-flow, dispatch and tiled-inference reassembly logic of
`u-net.py`. The script's pure decision logic (mode dispatch, the tfrecord
truth filter, the blanket-except consuming loops, the per-entry metric
filtering, the tumble orientation ensemble, the VALID-padding geometry and the
large-image reassembly loop) is embedded shallowly: arrays become functions
from indices to rationals, in-place numpy updates become explicit state
passing, and the stream consumed by each loop becomes a list.
-/

namespace UNet

/-! ### Mode dispatch (u-net.py lines 617-620, 710, 787, 838) -/

/-- Containment of `sub` as a contiguous run inside a character list,
mirroring the Python `in` operator on strings. -/
def hasInfix (sub : List Char) : List Char → Bool
  | [] => sub.isEmpty
  | c :: rest => sub.isPrefixOf (c :: rest) || hasInfix sub rest

/-- Python `sub in s` on strings. -/
def strContains (s sub : String) : Bool :=
  hasInfix sub.data s.data

/-- Which top-level body of `main` runs once the graph is built. -/
inductive Branch where
  | train
  | test
  | predict
  | largePredict
  | noop
deriving DecidableEq

/-- The dispatch structure of `main`: `ckpt_exists` is a boolean, the whole
chain is guarded by `len(image_path_list) > 0` (line 618), and the branches
are tried in source order (`mode == 'train'`, `'test' in mode and
ckpt_exists`, `'predict' in mode and ckpt_exists`, `mode == 'large_predict'
and ckpt_exists`). -/
def dispatch (mode : String) (ckptExists : Bool) (numImages : ℕ) : Branch :=
  if 0 < numImages then
    if mode == "train" then Branch.train
    else if strContains mode "test" && ckptExists then Branch.test
    else if strContains mode "predict" && ckptExists then Branch.predict
    else if (mode == "large_predict") && ckptExists then Branch.largePredict
    else Branch.noop
  else Branch.noop

/-! ### tfrecord truth filtering (u-net.py lines 192-236) -/

/-- Python `predicate` (lines 218-219): `tf.greater(tf.reduce_sum(mask), 1)`.
A mask is represented by the list of its uint8 entries in any order, since
only the sum is inspected. The mask tensor is decoded as `tf.uint8` (line
207) and never cast before the filter, and `tf.reduce_sum` accumulates in the
input dtype, so the sum is a uint8 value: it wraps modulo 256 (stepwise
wrapping of byte additions agrees with the total sum taken modulo 256). -/
def predicateKeep (mask : List ℕ) : Bool :=
  decide (1 < mask.sum % 256)

/-- The filter step of the tfrecord pipeline (lines 231-232), applied only
when `truth_only` is true. -/
def datasetFilter (truthOnly : Bool) (samples : List (List ℕ)) : List (List ℕ) :=
  if truthOnly then samples.filter predicateKeep else samples

/-- Activation condition of the tfrecord pipeline (lines 192-194): tfrecord
extension, a dataset directory, and mode contained in ['train', 'test']. -/
def tfrecordActive (ext : String) (hasDatasetDir : Bool) (mode : String) : Bool :=
  (ext == "tfrecord") && hasDatasetDir && ((mode == "train") || (mode == "test"))

/-! ### Blanket-except consuming loops (u-net.py lines 726-750, 806-832) -/

/-- One step of the finite test/predict stream as the consuming loop sees it:
a value, the exhaustion signal, or a raised I/O error. -/
inductive StreamStep (α : Type) where
  | ok (a : α)
  | exhausted
  | ioError (msg : String)

/-- The code's loop shape: `while keep_going: try: ... except: keep_going =
False`. Any raised step, I/O faults included, clears the flag, so the loop
returns normally with the values read before the first raised step. -/
def blanketLoop {α : Type} : List (StreamStep α) → List α
  | [] => []
  | StreamStep.ok a :: rest => a :: blanketLoop rest
  | StreamStep.exhausted :: _ => []
  | StreamStep.ioError _ :: _ => []

/-- Modelled from the spec: sections 4.2 and 7 require a corpus I/O error to
propagate out of the consuming loop as an identified failure, while exhaustion
alone ends the loop normally. This is the loop the claim describes, stated for
comparison with `blanketLoop`. -/
def propagatingLoop {α : Type} : List (StreamStep α) → Except String (List α)
  | [] => Except.ok []
  | StreamStep.ok a :: rest => Except.map (fun l => a :: l) (propagatingLoop rest)
  | StreamStep.exhausted :: _ => Except.ok []
  | StreamStep.ioError m :: _ => Except.error m

/-! ### Test-mode per-entry metrics (u-net.py lines 752-760) -/

/-- Guard of the metric list comprehensions: `len(np.unique(a)) == 2` for the
flattened binarized truth `a`. -/
def metricEntryKept (a : List ℕ) : Bool :=
  decide (a.dedup.length = 2)

/-- One of the comprehensions `[score(a, b) for a, b in zip(all_true,
all_probs) if len(np.unique(a)) == 2]`, with the score function abstract. -/
def perEntryMetrics (f : List ℕ → List ℚ → ℚ) (trues : List (List ℕ))
    (probs : List (List ℚ)) : List ℚ :=
  ((trues.zip probs).filter (fun p => metricEntryKept p.1)).map (fun p => f p.1 p.2)

/-! ### Tumble orientation ensemble (u-net.py lines 316-328, 409-427) -/

/-- A square single-channel image plane (rotations require height = width for
the batch concatenation to typecheck, so the embedding is square). -/
abbrev Sq (n : ℕ) (α : Type) : Type := Fin n → Fin n → α

/-- `tf.image.rot90` with k = 1, one 90-degree counter-clockwise rotation:
row i, column j of the result is row j, column (n - 1 - i) of the input. -/
def rot90 {n : ℕ} {α : Type} (f : Sq n α) : Sq n α :=
  fun i j => f j i.rev

/-- `tf.image.flip_left_right`. -/
def flipLR {n : ℕ} {α : Type} (f : Sq n α) : Sq n α :=
  fun i j => f i j.rev

/-- Iterated 90-degree rotation. -/
def rotIter {n : ℕ} {α : Type} : ℕ → Sq n α → Sq n α
  | 0, f => f
  | m + 1, f => rot90 (rotIter m f)

/-- `tf.image.rot90` with an arbitrary integer count, reduced modulo 4. -/
def rot90k {n : ℕ} {α : Type} (k : ℤ) (f : Sq n α) : Sq n α :=
  rotIter (k % 4).toNat f

/-- The tumble-mode combiner: the input batch is expanded into the 8 dihedral
variants of lines 316-328, the network maps each variant to an output, each
output is inverted exactly as in lines 409-427, and the 8 aligned outputs are
averaged elementwise (tf.reduce_mean over the batch axis). -/
def tumblePredict {n : ℕ} (net : Sq n ℚ → Sq n ℚ) (x : Sq n ℚ) : Sq n ℚ :=
  let fx := flipLR x
  let o1 := net (rot90k 1 x)
  let o2 := net (rot90k 2 x)
  let o3 := net (rot90k 3 x)
  let o5 := net (rot90k 1 fx)
  let o6 := net (rot90k 2 fx)
  let o7 := net (rot90k 3 fx)
  let p0 := net x
  let p1 := rot90k (-1) o1
  let p2 := rot90k (-2) o2
  let p3 := rot90k (-3) o3
  let p4 := flipLR (net fx)
  let p5 := rot90k 1 (flipLR o5)
  let p6 := rot90k (-2) (flipLR o6)
  let p7 := rot90k (-1) (flipLR o7)
  fun i j =>
    (p0 i j + p1 i j + p2 i j + p3 i j + p4 i j + p5 i j + p6 i j + p7 i j) / 8

/-! ### VALID-padding geometry (u-net.py lines 332-338, 889-898) -/

/-- The spatial part of the crop `truth[:, 92:(h-92), 92:(w-92), :]` as an
index map on a single channel plane. -/
def truthCropped (t : ℕ → ℕ → ℚ) : ℕ → ℕ → ℚ :=
  fun i j => t (92 + i) (92 + j)

/-- Length of the Python slice `92:(h-92)` on an axis of length `h`. -/
def cropSliceLen (h : ℕ) : ℕ :=
  h - 92 - 92

/-- `net_x, net_y = input_height - 184, input_width - 184` (line 333), the
network's spatial output size; under SAME padding nothing shrinks. -/
def netOutSize (padding : String) (h w : ℕ) : ℕ × ℕ :=
  if padding == "VALID" then (h - 184, w - 184) else (h, w)

/-- Shape of the `mask` / `division_mask` accumulators allocated at lines
889-898: the recorded source shape loses 184 per spatial dimension under VALID
padding. -/
def accumShape (padding : String) (sh sw nc : ℕ) : ℕ × ℕ × ℕ :=
  if padding == "VALID" then (sh - 184, sw - 184, nc) else (sh, sw, nc)

/-- Truth/weight processing of lines 332-338: the 92-pixel crop is applied
only under VALID padding and only in training. -/
def procTruth (padding : String) (isTraining : Bool) (t : ℕ → ℕ → ℚ) : ℕ → ℕ → ℚ :=
  if (padding == "VALID") && isTraining then truthCropped t else t

/-- Concrete channel plane used to instantiate the crop statement. -/
def sampleArr : ℕ → ℕ → ℚ :=
  fun i j => (i : ℚ) + j

/-! ### Large-image reassembly (u-net.py lines 838-914) -/

/-- Accumulator or prediction array: value at (row, column, class). -/
abbrev Grid : Type := ℕ → ℕ → ℕ → ℚ

def zeroGrid : Grid := fun _ _ _ => 0

/-- Modelled from the spec: `remap_tiles` is imported from `unet_utilities`,
which is not among the sources here. Per spec section 4.4 it adds the tile
prediction into `mask[row : row+tile_h, col : col+tile_w, :]` and increments
the same region of `division_mask` by 1 elementwise; the in-place numpy
mutation is rendered as returning the updated pair. -/
def remap_tiles (mask divMask : Grid) (row col th tw : ℕ) (tile : Grid) :
    Grid × Grid :=
  (fun i j c =>
    if row ≤ i ∧ i < row + th ∧ col ≤ j ∧ j < col + tw then
      mask i j c + tile (i - row) (j - col) c
    else mask i j c,
   fun i j c =>
    if row ≤ i ∧ i < row + th ∧ col ≤ j ∧ j < col + tw then
      divMask i j c + 1
    else divMask i j c)

/-- `division_mask[division_mask == 0] = 1` (lines 882 and 907). -/
def fixDivision (d : Grid) : Grid :=
  fun i j c => if d i j c = 0 then 1 else d i j c

/-- `np.argmax` over an axis of length n: index of the first maximum (ties
keep the earlier index), 0 on an axis of length at most 1. -/
def argmaxClass (f : ℕ → ℚ) : ℕ → ℕ
  | 0 => 0
  | 1 => 0
  | m + 2 =>
    let i := argmaxClass f (m + 1)
    if f i < f (m + 1) then m + 1 else i

/-- `astype('uint8')` on a nonnegative integer label. -/
def toUint8 (v : ℕ) : ℕ :=
  v % 256

/-- The thresholding `image[image >= 0.5] = 1; image[image < 0.5] = 0`
(lines 909-910) applied to an integer label. -/
def threshLabel (v : ℕ) : ℕ :=
  if (1 : ℚ) / 2 ≤ (v : ℚ) then 1 else 0

/-- Identifier-change flush (lines 882-886): zero entries of the division
mask become 1, labels are the per-pixel argmax of mask / division_mask,
replicated over the 3 output channels (the channel argument is ignored) and
cast to 8 bits. -/
def identFlush (m d : Grid) (nc : ℕ) : ℕ → ℕ → ℕ → ℕ :=
  fun i j _ => toUint8 (argmaxClass (fun c => m i j c / fixDivision d i j c) nc)

/-- End-of-batch flush (lines 907-913): as the identifier-change flush but
with every label thresholded at 0.5 before the cast. -/
def threshFlush (m d : Grid) (nc : ℕ) : ℕ → ℕ → ℕ → ℕ :=
  fun i j _ =>
    toUint8 (threshLabel (argmaxClass (fun c => m i j c / fixDivision d i j c) nc))

/-- One network output tile with its stream metadata: source-image identifier
(`image_names[i]` basename), recorded source shape (`shapes[i][0:2]`), and
origin coordinates (`coords[i]`). -/
structure Tile where
  name : String
  shapeH : ℕ
  shapeW : ℕ
  row : ℕ
  col : ℕ
  pred : Grid

/-- Static configuration of the large-predict loop. -/
structure LPConfig where
  padding : String
  nClasses : ℕ
  tileH : ℕ
  tileW : ℕ

/-- State of the large-predict loop: `curr_image_name`, the single live
accumulator pair with its allocated spatial shape, and the sequence of saved
images (identifier, pixel array) in save order. -/
structure LPState where
  currName : String
  mask : Grid
  divMask : Grid
  accH : ℕ
  accW : ℕ
  outputs : List (String × (ℕ → ℕ → ℕ → ℕ))

/-- Initial state: `curr_image_name = ''` (line 863); the accumulator pair
does not exist yet and is rendered as zeros. -/
def initLP : LPState :=
  { currName := "", mask := zeroGrid, divMask := zeroGrid, accH := 0, accW := 0,
    outputs := [] }

/-- Per-tile body (lines 878-905): on an identifier change the previous
accumulator, if any, is saved with the raw-argmax flush, and a zeroed pair is
allocated at the shape of lines 889-898; the tile is then remapped into the
live accumulator. -/
def processTile (cfg : LPConfig) (s : LPState) (t : Tile) : LPState :=
  if t.name = s.currName then
    let md := remap_tiles s.mask s.divMask t.row t.col cfg.tileH cfg.tileW t.pred
    { s with mask := md.1, divMask := md.2 }
  else
    let outs :=
      if s.currName = "" then s.outputs
      else s.outputs ++ [(s.currName, identFlush s.mask s.divMask cfg.nClasses)]
    let dims := accumShape cfg.padding t.shapeH t.shapeW cfg.nClasses
    let md := remap_tiles zeroGrid zeroGrid t.row t.col cfg.tileH cfg.tileW t.pred
    { currName := t.name, mask := md.1, divMask := md.2, accH := dims.1,
      accW := dims.2.1, outputs := outs }

/-- Per-batch body (lines 865-914): all tiles of the batch are processed, then
the thresholded flush of lines 907-914 is saved under the current identifier;
because `division_mask[division_mask == 0] = 1` mutates the array in place,
the state keeps the fixed division mask for later batches. -/
def processBatch (cfg : LPConfig) (s : LPState) (tiles : List Tile) : LPState :=
  let s1 := tiles.foldl (processTile cfg) s
  { s1 with
    divMask := fixDivision s1.divMask
    outputs := s1.outputs ++
      [(s1.currName, threshFlush s1.mask s1.divMask cfg.nClasses)] }

/-- The whole large-predict loop over the batched tile stream. -/
def runLargePredict (cfg : LPConfig) (batches : List (List Tile)) : LPState :=
  batches.foldl (processBatch cfg) initLP

/-- Two-tile accumulation starting from a fresh (all-zero) accumulator. -/
def accumTwo (t1 t2 : Grid) (h1 w1 h2 w2 th tw : ℕ) : Grid × Grid :=
  remap_tiles (remap_tiles zeroGrid zeroGrid h1 w1 th tw t1).1
    (remap_tiles zeroGrid zeroGrid h1 w1 th tw t1).2 h2 w2 th tw t2

/-- Per-class average of two tile predictions at accumulator pixel (i, j). -/
def tileAvg (t1 t2 : Grid) (h1 w1 h2 w2 i j : ℕ) : ℕ → ℚ :=
  fun c => (t1 (i - h1) (j - w1) c + t2 (i - h2) (j - w2) c) / 2

/-- Tile prediction putting all weight on class 1. -/
def gridClassOne : Grid := fun _ _ c => if c = 1 then 1 else 0

/-- Tile prediction putting all weight on class 0. -/
def gridClassZero : Grid := fun _ _ c => if c = 0 then 1 else 0

/-- Tile prediction putting all weight on class 2. -/
def gridClassTwo : Grid := fun _ _ c => if c = 2 then 1 else 0

/-- A division mask that is 1 everywhere (each pixel covered once). -/
def oneDiv : Grid := fun _ _ _ => 1

/-- Concrete loop configuration: SAME padding, 2 classes, 1-by-1 tiles. -/
def cfgEx : LPConfig :=
  { padding := "SAME", nClasses := 2, tileH := 1, tileW := 1 }

def tileA0 : Tile :=
  { name := "A", shapeH := 1, shapeW := 3, row := 0, col := 0, pred := gridClassOne }

def tileA1 : Tile :=
  { name := "A", shapeH := 1, shapeW := 3, row := 0, col := 1, pred := gridClassOne }

def tileA2 : Tile :=
  { name := "A", shapeH := 1, shapeW := 3, row := 0, col := 2, pred := gridClassOne }

def tileB0 : Tile :=
  { name := "B", shapeH := 1, shapeW := 1, row := 0, col := 0, pred := gridClassOne }

/-- State after the first tile of image A has been processed. -/
def stateA : LPState :=
  processTile cfgEx initLP tileA0

/-! ### Helper lemmas -/

/-- A list of 0/1 values has exactly two distinct entries iff both classes
occur in it. -/
theorem dedup_len_two (a : List ℕ) (ha : ∀ v ∈ a, v = 0 ∨ v = 1) :
    a.dedup.length = 2 ↔ (0 ∈ a ∧ 1 ∈ a) := by
  have hsub : a.toFinset ⊆ ({0, 1} : Finset ℕ) := by
    intro v hv
    rcases ha v (List.mem_toFinset.mp hv) with h | h <;> simp [h]
  constructor
  · intro h
    have hcard : a.toFinset.card = 2 := by
      rw [List.card_toFinset]; exact h
    have heq : a.toFinset = ({0, 1} : Finset ℕ) :=
      Finset.eq_of_subset_of_card_le hsub (by simp [hcard])
    refine ⟨?_, ?_⟩
    · rw [← List.mem_toFinset, heq]; simp
    · rw [← List.mem_toFinset, heq]; simp
  · rintro ⟨h0, h1⟩
    have hsup : ({0, 1} : Finset ℕ) ⊆ a.toFinset := by
      intro v hv
      rcases Finset.mem_insert.mp hv with h | h
      · rw [h]; exact List.mem_toFinset.mpr h0
      · rw [Finset.mem_singleton.mp h]; exact List.mem_toFinset.mpr h1
    have heq : a.toFinset = ({0, 1} : Finset ℕ) :=
      Finset.Subset.antisymm hsub hsup
    rw [← List.card_toFinset, heq]
    rfl

theorem rot90k_one {n : ℕ} {α : Type} (f : Sq n α) : rot90k 1 f = rotIter 1 f := rfl

theorem rot90k_two {n : ℕ} {α : Type} (f : Sq n α) : rot90k 2 f = rotIter 2 f := rfl

theorem rot90k_three {n : ℕ} {α : Type} (f : Sq n α) : rot90k 3 f = rotIter 3 f := rfl

theorem rot90k_neg_one {n : ℕ} {α : Type} (f : Sq n α) :
    rot90k (-1) f = rotIter 3 f := rfl

theorem rot90k_neg_two {n : ℕ} {α : Type} (f : Sq n α) :
    rot90k (-2) f = rotIter 2 f := rfl

theorem rot90k_neg_three {n : ℕ} {α : Type} (f : Sq n α) :
    rot90k (-3) f = rotIter 1 f := rfl

/-! ### Claim C10 -/

/-- Claim C10: with an empty resolved corpus path list, every mode dispatches
to no branch at all: no training, testing or prediction work runs, no output
is produced, and no error is raised. -/
theorem empty_corpus_silent_noop (mode : String) (ckptExists : Bool) :
    dispatch mode ckptExists 0 = Branch.noop := by
  simp [dispatch]

/-! ### Claim C6 -/

/-- Claim C6: for any non-train mode (test, predict and large_predict
included), an absent checkpoint makes the dispatch a silent no-op, and any
branch other than the no-op requires the checkpoint to exist; train proceeds
regardless of the checkpoint. -/
theorem checkpoint_gate (mode : String) (n : ℕ) (hn : 0 < n)
    (hm : mode ≠ "train") :
    dispatch mode false n = Branch.noop
    ∧ (∀ c, dispatch "train" c n = Branch.train)
    ∧ (∀ c, dispatch mode c n ≠ Branch.noop → c = true) := by
  refine ⟨?_, ?_, ?_⟩
  · simp [dispatch, hn, hm]
  · intro c; simp [dispatch, hn]
  · intro c hc
    cases c
    · exact absurd (by simp [dispatch, hn, hm]) hc
    · rfl

/-- Witness for claim C6 at mode large_predict with one corpus image. -/
theorem checkpoint_gate_witness :
    (0 < 1 ∧ ("large_predict" : String) ≠ "train")
    ∧ (dispatch "large_predict" false 1 = Branch.noop
       ∧ (∀ c, dispatch "train" c 1 = Branch.train)
       ∧ (∀ c, dispatch "large_predict" c 1 ≠ Branch.noop → c = true)) :=
  ⟨⟨Nat.one_pos, by decide⟩,
   checkpoint_gate "large_predict" 1 Nat.one_pos (by decide)⟩

/-! ### Claim C7 -/

/-- Claim C7 counterexample: a mask with exactly one positive pixel (sum 1,
strictly greater than zero) is dropped by the truth filter, although the claim
says a sample is kept exactly when the mask sum is greater than zero; so is a
mask of 256 one-valued pixels, whose uint8 sum wraps to 0. -/
theorem truth_filter_cx :
    datasetFilter true [[1]] = [] ∧ 0 < ([1] : List ℕ).sum
    ∧ datasetFilter true [List.replicate 256 1] = []
    ∧ 0 < (List.replicate 256 1).sum := by
  have hs : (List.replicate 256 (1 : ℕ)).sum = 256 := by
    rw [List.sum_replicate, smul_eq_mul, Nat.mul_one]
  have h : predicateKeep (List.replicate 256 1) = false := by
    show decide (1 < (List.replicate 256 (1 : ℕ)).sum % 256) = false
    rw [hs]
    decide
  refine ⟨by decide, by decide, ?_, ?_⟩
  · show (if true then List.filter predicateKeep [List.replicate 256 1] else _) = []
    rw [if_pos rfl, List.filter_cons, h]
    rfl
  · rw [hs]
    decide

/-- Claim C7 amended: with truth_only requested, the tfrecord filter keeps a
sample exactly when its uint8 mask sum — accumulated in uint8, hence taken
modulo 256 — is strictly greater than 1, so zero-positive masks, masks
summing to exactly 1, and masks whose byte sum is congruent to 0 or 1 modulo
256 are all dropped; the surviving sequence is an order-preserving sublist, no
filtering happens with truth_only off, and the pipeline applying the filter is
active only in train or test mode. -/
theorem truth_filter_amended (samples : List (List ℕ)) (m : List ℕ)
    (ext : String) (hasDir : Bool) (mode : String) :
    (datasetFilter true samples).Sublist samples
    ∧ (m ∈ datasetFilter true samples ↔ m ∈ samples ∧ 1 < m.sum % 256)
    ∧ datasetFilter false samples = samples
    ∧ (tfrecordActive ext hasDir mode
        && !((mode == "train") || (mode == "test"))) = false := by
  refine ⟨?_, ?_, rfl, ?_⟩
  · simp only [datasetFilter, if_true]
    exact List.filter_sublist samples
  · simp [datasetFilter, List.mem_filter, predicateKeep]
  · cases h1 : (mode == "train") <;> cases h2 : (mode == "test") <;>
      simp [tfrecordActive, h1, h2]

/-! ### Claim C5 -/

/-- Claim C5 counterexample: a mid-stream I/O error is swallowed by the
blanket except: the loop's result on the faulting stream is identical to its
result on a cleanly exhausted stream and it terminates normally with the
values read so far, while the behavior the claim describes propagates the
identified error. -/
theorem blanket_except_cx :
    blanketLoop [StreamStep.ok (1 : ℕ),
        StreamStep.ioError "unreadable image", StreamStep.ok 2]
      = blanketLoop [StreamStep.ok 1, StreamStep.exhausted]
    ∧ blanketLoop [StreamStep.ok (1 : ℕ),
        StreamStep.ioError "unreadable image", StreamStep.ok 2] = [1]
    ∧ propagatingLoop [StreamStep.ok (1 : ℕ),
        StreamStep.ioError "unreadable image", StreamStep.ok 2]
      = Except.error "unreadable image" :=
  ⟨rfl, rfl, rfl⟩

/-- Claim C5 amended: any raised step in the test/predict loop body, an I/O
fault included, is caught by the blanket except and converted into normal loop
termination with the values read so far, indistinguishable from end-of-stream;
nothing after the fault is processed and no error propagates. -/
theorem blanket_except_amended {α : Type} (pre : List α)
    (post : List (StreamStep α)) (m : String) :
    blanketLoop (pre.map StreamStep.ok ++ StreamStep.ioError m :: post) = pre
    ∧ blanketLoop (pre.map StreamStep.ok ++ StreamStep.exhausted :: post) = pre := by
  induction pre with
  | nil => exact ⟨rfl, rfl⟩
  | cons a as ih => exact ⟨by simp [blanketLoop, ih.1], by simp [blanketLoop, ih.2]⟩

/-! ### Claim C8 -/

/-- Claim C8: when every binarized truth value is 0 or 1, the per-entry metric
lists are computed over exactly the entries whose flattened truth contains
both classes; entries with a single class present are skipped rather than
evaluated. -/
theorem metrics_skip_single_class (f : List ℕ → List ℚ → ℚ)
    (trues : List (List ℕ)) (probs : List (List ℚ))
    (hb : ∀ a ∈ trues, ∀ v ∈ a, v = 0 ∨ v = 1) :
    perEntryMetrics f trues probs =
      ((trues.zip probs).filter (fun p => decide (0 ∈ p.1 ∧ 1 ∈ p.1))).map
        (fun p => f p.1 p.2) := by
  unfold perEntryMetrics
  congr 1
  apply List.filter_congr
  intro p hp
  have hmem : p.1 ∈ trues := (List.of_mem_zip hp).1
  exact decide_eq_decide.mpr (dedup_len_two p.1 (hb p.1 hmem))

/-- Witness for claim C8: with one two-class entry and one single-class entry,
the comprehension evaluates the score on the first only. -/
theorem metrics_skip_single_class_witness :
    (∀ a ∈ ([[0, 1], [0, 0]] : List (List ℕ)), ∀ v ∈ a, v = 0 ∨ v = 1)
    ∧ perEntryMetrics (fun _ _ => (7 : ℚ)) [[0, 1], [0, 0]] [[0], [0]] =
        ((([[0, 1], [0, 0]] : List (List ℕ)).zip ([[0], [0]] : List (List ℚ))).filter
          (fun p => decide (0 ∈ p.1 ∧ 1 ∈ p.1))).map (fun p => (fun _ _ => (7 : ℚ)) p.1 p.2) :=
  ⟨by decide,
   metrics_skip_single_class (fun _ _ => (7 : ℚ)) [[0, 1], [0, 0]] [[0], [0]] (by decide)⟩

/-! ### Claim C3 -/

/-- Claim C3: running the tumble combiner with the identity network returns
the original, unmodified input: each of the 8 inversions of lines 409-427
exactly cancels its forward transform of lines 316-328, and the elementwise
mean of the 8 aligned copies is the input itself. -/
theorem tumble_identity_round_trip (n : ℕ) (x : Sq n ℚ) :
    tumblePredict (fun y => y) x = x := by
  funext i j
  simp only [tumblePredict, rot90k_one, rot90k_two, rot90k_three,
    rot90k_neg_one, rot90k_neg_two, rot90k_neg_three]
  simp [rotIter, rot90, flipLR, Fin.rev_rev]
  ring

/-! ### Claim C4 -/

/-- Claim C4: under VALID padding the network output is exactly 184 pixels
smaller per spatial dimension, the training crop keeps the slice 92:(h-92) of
each edge (so the cropped truth/weights have shape (h-184, w-184) and the
pixel (i, j) of the crop is pixel (92+i, 92+j) of the original), and the
large-predict accumulators are allocated at (sh-184, sw-184, n_classes);
under SAME padding no crop is applied and no dimension shrinks. -/
theorem valid_padding_geometry (h w sh sw nc i j : ℕ) (t : ℕ → ℕ → ℚ)
    (hh : 184 ≤ h) (hw : 184 ≤ w) :
    netOutSize "VALID" h w = (h - 184, w - 184)
    ∧ cropSliceLen h = h - 184
    ∧ cropSliceLen w = w - 184
    ∧ h - 184 + 184 = h
    ∧ w - 184 + 184 = w
    ∧ procTruth "VALID" true t i j = t (92 + i) (92 + j)
    ∧ accumShape "VALID" sh sw nc = (sh - 184, sw - 184, nc)
    ∧ procTruth "SAME" true t = t
    ∧ accumShape "SAME" sh sw nc = (sh, sw, nc)
    ∧ netOutSize "SAME" h w = (h, w) := by
  refine ⟨?_, ?_, ?_, ?_, ?_, ?_, ?_, ?_, ?_, ?_⟩
  · simp [netOutSize]
  · simp only [cropSliceLen]; omega
  · simp only [cropSliceLen]; omega
  · omega
  · omega
  · simp [procTruth, truthCropped]
  · simp [accumShape]
  · simp [procTruth]
  · simp [accumShape]
  · simp [netOutSize]

/-- Witness for claim C4 at a 512-by-512 input and a 600-by-600 source. -/
theorem valid_padding_geometry_witness :
    ((184 ≤ 512) ∧ (184 ≤ 512))
    ∧ (netOutSize "VALID" 512 512 = (512 - 184, 512 - 184)
    ∧ cropSliceLen 512 = 512 - 184
    ∧ cropSliceLen 512 = 512 - 184
    ∧ 512 - 184 + 184 = 512
    ∧ 512 - 184 + 184 = 512
    ∧ procTruth "VALID" true sampleArr 0 0 = sampleArr (92 + 0) (92 + 0)
    ∧ accumShape "VALID" 600 600 3 = (600 - 184, 600 - 184, 3)
    ∧ procTruth "SAME" true sampleArr = sampleArr
    ∧ accumShape "SAME" 600 600 3 = (600, 600, 3)
    ∧ netOutSize "SAME" 512 512 = (512, 512)) :=
  ⟨⟨by decide, by decide⟩,
   valid_padding_geometry 512 512 600 600 3 0 0 sampleArr (by decide) (by decide)⟩

/-! ### Claim C1 -/

/-- Claim C1 counterexample: with 3 classes and one tile predicting class 2,
the per-pixel argmax of mask / division_mask at the covered pixel is 2, yet
the flush of lines 907-914 (the one taken at end of batch, hence at stream
end) emits label 1 there; the identifier-change flush emits the raw argmax 2,
so the emitted label map is not always the per-pixel argmax. -/
theorem flush_argmax_cx :
    argmaxClass (fun c =>
        (remap_tiles zeroGrid zeroGrid 0 0 1 1 gridClassTwo).1 0 0 c /
          fixDivision (remap_tiles zeroGrid zeroGrid 0 0 1 1 gridClassTwo).2 0 0 c) 3
      = 2
    ∧ threshFlush (remap_tiles zeroGrid zeroGrid 0 0 1 1 gridClassTwo).1
        (remap_tiles zeroGrid zeroGrid 0 0 1 1 gridClassTwo).2 3 0 0 0 = 1
    ∧ identFlush (remap_tiles zeroGrid zeroGrid 0 0 1 1 gridClassTwo).1
        (remap_tiles zeroGrid zeroGrid 0 0 1 1 gridClassTwo).2 3 0 0 0 = 2 := by
  norm_num [remap_tiles, zeroGrid, gridClassTwo, fixDivision, argmaxClass,
    threshFlush, identFlush, threshLabel, toUint8]

/-- Claim C1 amended: at a pixel covered by two overlapping tiles accumulated
from a fresh accumulator, the normalized value mask / division_mask is the
average of the two tile predictions (not either one alone); the
identifier-change flush emits the per-pixel argmax of that average (replicated
over channels, cast to 8 bits), while the end-of-batch flush emits the same
argmax additionally thresholded at 0.5. -/
theorem overlap_average (t1 t2 : Grid) (h1 w1 h2 w2 th tw i j nc c ch : ℕ)
    (ha1 : h1 ≤ i) (ha2 : i < h1 + th) (ha3 : w1 ≤ j) (ha4 : j < w1 + tw)
    (hb1 : h2 ≤ i) (hb2 : i < h2 + th) (hb3 : w2 ≤ j) (hb4 : j < w2 + tw) :
    (accumTwo t1 t2 h1 w1 h2 w2 th tw).1 i j c /
        fixDivision (accumTwo t1 t2 h1 w1 h2 w2 th tw).2 i j c
      = tileAvg t1 t2 h1 w1 h2 w2 i j c
    ∧ identFlush (accumTwo t1 t2 h1 w1 h2 w2 th tw).1
        (accumTwo t1 t2 h1 w1 h2 w2 th tw).2 nc i j ch
      = toUint8 (argmaxClass (tileAvg t1 t2 h1 w1 h2 w2 i j) nc)
    ∧ threshFlush (accumTwo t1 t2 h1 w1 h2 w2 th tw).1
        (accumTwo t1 t2 h1 w1 h2 w2 th tw).2 nc i j ch
      = toUint8 (threshLabel (argmaxClass (tileAvg t1 t2 h1 w1 h2 w2 i j) nc)) := by
  have key : ∀ c0, (accumTwo t1 t2 h1 w1 h2 w2 th tw).1 i j c0 /
      fixDivision (accumTwo t1 t2 h1 w1 h2 w2 th tw).2 i j c0
      = tileAvg t1 t2 h1 w1 h2 w2 i j c0 := by
    intro c0
    simp [accumTwo, remap_tiles, zeroGrid, fixDivision, tileAvg,
      ha1, ha2, ha3, ha4, hb1, hb2, hb3, hb4]
    norm_num
  have keyf : (fun c0 => (accumTwo t1 t2 h1 w1 h2 w2 th tw).1 i j c0 /
      fixDivision (accumTwo t1 t2 h1 w1 h2 w2 th tw).2 i j c0)
      = tileAvg t1 t2 h1 w1 h2 w2 i j := funext key
  refine ⟨key c, ?_, ?_⟩
  · simp only [identFlush]
    rw [keyf]
  · simp only [threshFlush]
    rw [keyf]

/-- Witness for the amended claim C1: two 1-by-1 tiles over the same pixel,
one predicting class 1 and one predicting class 0. -/
theorem overlap_average_witness :
    ((0 : ℕ) ≤ 0 ∧ (0 : ℕ) < 0 + 1 ∧ (0 : ℕ) ≤ 0 ∧ (0 : ℕ) < 0 + 1)
    ∧ ((accumTwo gridClassOne gridClassZero 0 0 0 0 1 1).1 0 0 0 /
          fixDivision (accumTwo gridClassOne gridClassZero 0 0 0 0 1 1).2 0 0 0
        = tileAvg gridClassOne gridClassZero 0 0 0 0 0 0 0
      ∧ identFlush (accumTwo gridClassOne gridClassZero 0 0 0 0 1 1).1
          (accumTwo gridClassOne gridClassZero 0 0 0 0 1 1).2 2 0 0 0
        = toUint8 (argmaxClass (tileAvg gridClassOne gridClassZero 0 0 0 0 0 0) 2)
      ∧ threshFlush (accumTwo gridClassOne gridClassZero 0 0 0 0 1 1).1
          (accumTwo gridClassOne gridClassZero 0 0 0 0 1 1).2 2 0 0 0
        = toUint8 (threshLabel
            (argmaxClass (tileAvg gridClassOne gridClassZero 0 0 0 0 0 0) 2))) :=
  ⟨⟨by decide, by decide, by decide, by decide⟩,
   overlap_average gridClassOne gridClassZero 0 0 0 0 1 1 0 0 2 0 0
     (by decide) (by decide) (by decide) (by decide)
     (by decide) (by decide) (by decide) (by decide)⟩

/-! ### Claim C2 -/

/-- Claim C2 counterexample: a grouped single-image stream split over three
batches is flushed three times, not once at its end, so a flush is not
triggered exactly by an identifier change or the stream end; and the ungrouped
stream A, B, A is not rejected: the run terminates normally, saving A a third
time from a freshly zeroed accumulator whose pixel (0, 0) has silently lost
the class-1 prediction of A's first tile (label 0 instead of 1). -/
theorem reassembler_grouping_cx :
    (runLargePredict cfgEx [[tileA0], [tileA1], [tileA2]]).outputs.map Prod.fst
      = ["A", "A", "A"]
    ∧ (runLargePredict cfgEx [[tileA0], [tileB0], [tileA2]]).outputs.map
        (fun p => (p.1, p.2 0 0 0))
      = [("A", 1), ("A", 1), ("B", 1), ("B", 1), ("A", 0)] := by
  constructor
  · rfl
  · norm_num +decide [runLargePredict, processBatch, processTile, initLP, cfgEx,
      tileA0, tileB0, tileA2, gridClassOne, remap_tiles, zeroGrid, accumShape,
      fixDivision, identFlush, threshFlush, threshLabel, toUint8, argmaxClass]

/-- Claim C2 amended: the loop keeps a single live accumulator; a reallocation
happens exactly when the incoming tile's identifier differs from the current
one (the accumulator continues otherwise), an identifier change additionally
saves the previous image when one exists, and a further save happens
unconditionally at the end of every batch — including batches with no
identifier change — rather than only at the stream end; a grouping violation
is never detected, the loop just restarts a fresh accumulator for the repeated
identifier. -/
theorem reassembler_behavior (cfg : LPConfig) (s : LPState) (t : Tile)
    (ts : List Tile) :
    (processTile cfg s t).currName = t.name
    ∧ (processTile cfg s t).outputs =
        (if t.name = s.currName then s.outputs
         else if s.currName = "" then s.outputs
         else s.outputs ++ [(s.currName, identFlush s.mask s.divMask cfg.nClasses)])
    ∧ (processTile cfg s t).divMask =
        (if t.name = s.currName then
          (remap_tiles s.mask s.divMask t.row t.col cfg.tileH cfg.tileW t.pred).2
         else (remap_tiles zeroGrid zeroGrid t.row t.col cfg.tileH cfg.tileW t.pred).2)
    ∧ (processBatch cfg s ts).outputs =
        (ts.foldl (processTile cfg) s).outputs
          ++ [((ts.foldl (processTile cfg) s).currName,
               threshFlush (ts.foldl (processTile cfg) s).mask
                 (ts.foldl (processTile cfg) s).divMask cfg.nClasses)] := by
  refine ⟨?_, ?_, ?_, rfl⟩ <;>
    by_cases hn : t.name = s.currName <;> simp [processTile, hn]

/-! ### Claim C9 -/

/-- Claim C9: the end-of-batch flush emits only 0/1 pixel values (the argmax
is thresholded at 0.5, so class 2 collapses to 1 with 3 classes), the
identifier-change flush emits the raw argmax labels, the thresholded flush is
what every batch appends to the saved outputs, and on a concrete 3-class
accumulator state the two flush paths emit different values at the same
pixel. -/
theorem flush_path_divergence (m d : Grid) (nc i j ch : ℕ) (cfg : LPConfig)
    (s : LPState) (ts : List Tile) :
    (threshFlush m d nc i j ch = 0 ∨ threshFlush m d nc i j ch = 1)
    ∧ identFlush m d nc i j ch
        = toUint8 (argmaxClass (fun c => m i j c / fixDivision d i j c) nc)
    ∧ (processBatch cfg s ts).divMask
        = fixDivision ((ts.foldl (processTile cfg) s).divMask)
    ∧ identFlush gridClassTwo oneDiv 3 0 0 0 = 2
    ∧ threshFlush gridClassTwo oneDiv 3 0 0 0 = 1 := by
  refine ⟨?_, rfl, rfl, ?_, ?_⟩
  · have hgen : ∀ v : ℕ, toUint8 (threshLabel v) = 0 ∨ toUint8 (threshLabel v) = 1 := by
      intro v
      by_cases hv : (1 : ℚ) / 2 ≤ (v : ℚ)
      · right
        simp only [threshLabel, toUint8]
        rw [if_pos hv]
      · left
        simp only [threshLabel, toUint8]
        rw [if_neg hv]
    exact hgen _
  · norm_num [identFlush, fixDivision, gridClassTwo, oneDiv, argmaxClass, toUint8]
  · norm_num [threshFlush, fixDivision, gridClassTwo, oneDiv, argmaxClass,
      threshLabel, toUint8]

end UNet
